import Mathlib

set_option maxRecDepth 100000
set_option maxHeartbeats 2000000

/-!
Shallow embedding of the contract-generation pipeline
(`contracts.py`: direct-PDF variant; `contracts2.py`: HTML variant).

Machine-level conventions of the embedding:
* Python strings are Lean `String` (a structure around `List Char`);
  `str.strip()` is `pyStrip` (drop whitespace at both ends),
  `str.split(sep)` is `pySplit sep`, `str.count(c)` is `List.count c` on
  the character list, `str.startswith(c)` inspects the head character,
  and `str.strip(c)` drops the character from both ends.
* Python truthiness of an `Optional[str]` (`None` and `""` are falsy) is
  the `truthy` predicate below.
* Fallible code is `Except String _` (the error payload names the Python
  exception) or `Option _`; a `try/except` handler is a `match` on the
  `Except` value.
* External effects (the Bedrock network call, the reportlab
  `doc.multiBuild`, the wkhtmltopdf renderer invocations, file writes)
  are modelled by explicit behaviour parameters; the repository's own
  control flow around them is embedded faithfully.
-/

/-- Python truthiness of the `Optional[str]` values returned by the
content generator: `None` and the empty string are falsy
(`contracts.py`/`contracts2.py`, the `all([...])` gate in
`process_state`). -/
def truthy : Option String → Bool
  | none => false
  | some s => !s.isEmpty

/-- Python `str.split(sep)` for a one-character separator, on character
lists: splitting the empty string yields one empty field, and every
separator occurrence starts a new field. -/
def splitOnChar (c : Char) : List Char → List (List Char)
  | [] => [[]]
  | d :: ds =>
    match splitOnChar c ds with
    | [] => [[d]]
    | f :: fs => if d == c then [] :: f :: fs else (d :: f) :: fs

/-- Python `str.split(sep)` for a one-character separator. -/
def pySplit (sep : Char) (s : String) : List String :=
  (splitOnChar sep s.data).map (fun cs => ⟨cs⟩)

/-- Python `str.strip()`: drop whitespace from both ends. -/
def pyStrip (s : String) : String :=
  ⟨((s.data.dropWhile (fun c => c.isWhitespace)).reverse.dropWhile
      (fun c => c.isWhitespace)).reverse⟩

/-- `section.count('#')` — the number of `'#'` characters anywhere in the
line (`contracts.py` line 255, `contracts2.py` line 547). -/
def countHash (s : String) : Nat :=
  s.data.count '#'

/-- `section.startswith('#')` — the first character is `'#'`
(`contracts.py` line 254, `contracts2.py` line 546). -/
def startsWithHash (s : String) : Bool :=
  match s.data with
  | [] => false
  | c :: _ => c == '#'

/-- `section.strip('#')` — remove `'#'` characters from both ends of the
line (`contracts.py` line 256, `contracts2.py` line 548). -/
def stripHash (s : String) : String :=
  ⟨((s.data.dropWhile (fun c => c == '#')).reverse.dropWhile
      (fun c => c == '#')).reverse⟩

/-- Python `if section.strip():` is false exactly when every character of
the line is whitespace; this is the data-level reading of the blank-line
test in both `create_document` loops. -/
def isBlankLine (s : String) : Bool :=
  s.data.all (fun c => c.isWhitespace)

/-- A parsed unit of prose: heading depth (0 = body paragraph) and text,
the spec's DocumentBlock. -/
structure DocumentBlock where
  depth : Nat
  text : String
deriving DecidableEq, Repr

/-- The per-line loop of `ContractHTML.create_document`
(`contracts2.py` lines 543-551): blank lines are skipped; a line starting
with `'#'` becomes a block at depth `line.count('#')` with the text
`line.strip('#').strip()`; any other line becomes a depth-0 block with
its text unchanged. -/
def parseBlocks : List String → List DocumentBlock
  | [] => []
  | line :: rest =>
    if isBlankLine line then parseBlocks rest
    else if startsWithHash line then
      ⟨countHash line, pyStrip (stripHash line)⟩ :: parseBlocks rest
    else ⟨0, line⟩ :: parseBlocks rest

/-- `contract_content.split('\n')` fed into the block loop
(`contracts2.py` lines 543-551). -/
def create_document2_blocks (content : String) : List DocumentBlock :=
  parseBlocks (pySplit '\n' content)

/-- Modelled from the spec's words, for comparison with the source: the
length of the leading run of `'#'` markers of a segment ("a run of the
heading marker ... depth equal to the marker run length"). -/
def specLeadingMarkerRun (s : String) : Nat :=
  (s.data.takeWhile (fun c => c == '#')).length

/-- The amended per-line rule: blank lines yield no block; a line whose
first character is `'#'` yields a block at depth equal to the TOTAL
number of `'#'` characters in the line, with `'#'` stripped from both
ends and the remainder whitespace-trimmed; any other line yields a
depth-0 block verbatim. -/
def amendedBlockOfLine (line : String) : Option DocumentBlock :=
  if isBlankLine line then none
  else if startsWithHash line then
    some ⟨countHash line, pyStrip (stripHash line)⟩
  else some ⟨0, line⟩

/-- `ContractPDF.create_table_from_data`, parsing stage
(`contracts.py` lines 168-170): split the outer-stripped reply on
newlines, split each line on `'|'` (after stripping the line), and strip
every resulting cell. -/
def parseTableRows (data : String) : List (List String) :=
  let rows := (pySplit '\n' (pyStrip data)).map (fun row => pySplit '|' (pyStrip row))
  rows.map (fun row => row.map pyStrip)

/-- `max(len(str(row[col_idx])) for row in rows)`
(`contracts.py` line 175): the maximum cell length in column `j`, or
`none` when some row has no cell `j` (Python raises `IndexError`). -/
def colMax : List (List String) → Nat → Option Nat
  | [], _ => some 0
  | row :: rest, j =>
    match row[j]? with
    | none => none
    | some cell => (colMax rest j).map (fun m => max cell.length m)

/-- Builds a list through an option-valued function, failing at the first
failure — the column-width loop of `create_table_from_data`. -/
def optionMapList (f : Nat → Option Nat) : List Nat → Option (List Nat)
  | [] => some []
  | j :: js =>
    match f j with
    | none => none
    | some w => (optionMapList f js).map (fun ws => w :: ws)

/-- The column-width loop of `create_table_from_data`
(`contracts.py` lines 173-176): one width per header column, where the
width is the per-column maximum cell length; `none` models the
`IndexError` raised when a row is shorter than the header.  (The
subsequent monotone float scaling `min(max_width * 0.1 * inch,
doc.width/len(rows[0]))` is omitted: no claim depends on the numeric
value, only on whether the loop raises.) -/
def computeColWidths : List (List String) → Option (List Nat)
  | [] => none
  | header :: rest =>
    optionMapList (colMax (header :: rest)) (List.range header.length)

/-- `create_table_from_data` as a fallible step: parse the reply, then
run the column-width loop; `IndexError` propagates to the caller. -/
def tableElements (data : String) : Except String (List (List String) × List Nat) :=
  let rows := parseTableRows data
  match computeColWidths rows with
  | some ws => .ok (rows, ws)
  | none => .error "IndexError"

/-- The TableModel invariant the layout stage relies on: every row of
the parsed grid has the header row's column count.  `create_table_from_data`
never establishes or repairs this; a grid violating it is handed to the
layout stage as-is. -/
def rowsMatchHeader (rows : List (List String)) : Bool :=
  rows.all (fun row => row.length == (rows.headD []).length)

/-- `getSampleStyleSheet()` heading-style lookup
(`contracts.py` line 257, `styles[f'Heading{level}']`): the reportlab
sample stylesheet (external library, documented behaviour) defines
exactly the paragraph styles `Heading1` … `Heading6`; any other level
raises `KeyError`. -/
def styleFor (level : Nat) : Option String :=
  if 1 ≤ level && level ≤ 6 then some ("Heading" ++ toString level) else none

/-- The contract-body loop of `ContractPDF.create_document`
(`contracts.py` lines 252-259): like `parseBlocks`, but each heading
line looks its style up in the sample stylesheet and raises `KeyError`
when the style is missing. -/
def processContractLines : List String → Except String (List DocumentBlock)
  | [] => .ok []
  | line :: rest =>
    if isBlankLine line then processContractLines rest
    else if startsWithHash line then
      match styleFor (countHash line) with
      | some _ =>
        (processContractLines rest).map
          (fun bs => ⟨countHash line, pyStrip (stripHash line)⟩ :: bs)
      | none => .error "KeyError"
    else (processContractLines rest).map (fun bs => ⟨0, line⟩ :: bs)

/-- The in-memory story assembled by `ContractPDF.create_document`
before `multiBuild`: the parsed contract body and the three attachment
tables with their column widths. -/
structure PdfStory where
  bodyBlocks : List DocumentBlock
  rateTable : List (List String) × List Nat
  serviceTable : List (List String) × List Nat
  performanceTable : List (List String) × List Nat
deriving Repr, DecidableEq

/-- `ContractPDF.create_document` (`contracts.py` lines 233-289) up to
the `multiBuild` call: process the contract body, then build the three
attachment tables in order; the first exception propagates. -/
def create_document1 (contract rate svc perf : String) : Except String PdfStory :=
  match processContractLines (pySplit '\n' contract) with
  | .error e => .error e
  | .ok blocks =>
    match tableElements rate with
    | .error e => .error e
    | .ok t1 =>
      match tableElements svc with
      | .error e => .error e
      | .ok t2 =>
        match tableElements perf with
        | .error e => .error e
        | .ok t3 => .ok ⟨blocks, t1, t2, t3⟩

/-- Observable outcome of `process_state` in `contracts.py`: the boolean
return value, whether `ContractPDF.create_document` was invoked, and
whether the output PDF was written. -/
structure PdfOutcome where
  ok : Bool
  assemblerInvoked : Bool
  fileWritten : Bool
deriving Repr, DecidableEq

/-- `process_state` (`contracts.py` lines 296-332): the four generated
contents pass the `all([...])` gate; on success the document is
assembled and built (`buildOk` is the external layout engine's
behaviour); any exception is caught and turns into a `False` return. -/
def process_state1 (c r s p : Option String) (buildOk : Bool) : PdfOutcome :=
  if truthy c && truthy r && truthy s && truthy p then
    match create_document1 (c.getD "") (r.getD "") (s.getD "") (p.getD "") with
    | .ok _ => if buildOk then ⟨true, true, true⟩ else ⟨false, true, false⟩
    | .error _ => ⟨false, true, false⟩
  else ⟨false, false, false⟩

/-- The three PDF-conversion strategies of `contracts2.py`
(lines 639-660): `pdfkit.from_file` with the full option set,
`pdfkit.from_string` with the full option set, `pdfkit.from_file` with
the minimal option set. -/
inductive RenderStrategy
  | fileFull
  | stringFull
  | fileMinimal
deriving DecidableEq, Repr

/-- The nested try/except fallback chain (`contracts2.py` lines
640-660): try each strategy in order, stopping at the first success;
returns whether any succeeded and the ordered list of strategies
attempted. -/
def attemptConversion (succeeds : RenderStrategy → Bool) : Bool × List RenderStrategy :=
  if succeeds .fileFull then (true, [.fileFull])
  else if succeeds .stringFull then (true, [.fileFull, .stringFull])
  else if succeeds .fileMinimal then
    (true, [.fileFull, .stringFull, .fileMinimal])
  else (false, [.fileFull, .stringFull, .fileMinimal])

/-- Observable outcome of `process_state` in `contracts2.py`: the
boolean return value, whether the `.html` file was written, whether the
`.pdf` file was written, whether `ContractHTML.create_document` was
invoked, and which conversion strategies were attempted, in order. -/
structure HtmlOutcome where
  ok : Bool
  htmlWritten : Bool
  pdfWritten : Bool
  assemblerInvoked : Bool
  attempts : List RenderStrategy
deriving Repr, DecidableEq

/-- `process_state` (`contracts2.py` lines 573-690): the four generated
contents pass the `all([...])` gate; on success the HTML document is
assembled and written to disk; then, inside the conversion `try`, the
renderer configuration is looked up (`config = pdfkit.configuration()`,
line 618 — `configOk` is this external lookup's behaviour: it raises
when wkhtmltopdf is not installed, in which case the outer handler
returns `False` before any conversion strategy runs); only with a
configuration in hand is PDF conversion attempted through the fallback
chain.  If every strategy fails the inner handler re-raises and the
outer handler returns `False`.  In every failure path after the gate
the already-written HTML file stays on disk. -/
def process_state2 (c r s p : Option String) (configOk : Bool)
    (succeeds : RenderStrategy → Bool) : HtmlOutcome :=
  if truthy c && truthy r && truthy s && truthy p then
    if configOk then
      let conv := attemptConversion succeeds
      if conv.1 then ⟨true, true, true, true, conv.2⟩
      else ⟨false, true, false, true, conv.2⟩
    else ⟨false, true, false, true, []⟩
  else ⟨false, false, false, false, []⟩

/-- A JSON-like value, the shape of the Bedrock response body parsed by
`json.loads` in `generate_content_with_bedrock`. -/
inductive JVal
  | jnull
  | jstr (s : String)
  | jnum (n : Int)
  | jarr (xs : List JVal)
  | jobj (fields : List (String × JVal))

/-- Python `dict.get(key)`: the value at the key, or `None`. -/
def jlookup (fields : List (String × JVal)) (key : String) : Option JVal :=
  (fields.find? (fun kv => kv.1 == key)).map Prod.snd

/-- `response_body.get("content")[0].get("text")`
(`contracts.py` line 52, `contracts2.py` line 278), with Python
exception semantics: `.get` on a non-dict raises `AttributeError`;
subscripting `None` or a number raises `TypeError`; subscripting an
empty list raises `IndexError`; `.get` on a non-dict element (including
the character produced by subscripting a string) raises
`AttributeError`; a missing `"text"` key returns Python `None` without
raising. -/
def extractFirstText (body : JVal) : Except String (Option JVal) :=
  match body with
  | .jobj fields =>
    match jlookup fields "content" with
    | some (.jarr (first :: _)) =>
      match first with
      | .jobj f2 => .ok (jlookup f2 "text")
      | _ => .error "AttributeError"
    | some (.jarr []) => .error "IndexError"
    | some _ => .error "TypeError"
    | none => .error "TypeError"
  | _ => .error "AttributeError"

/-- `StateContractGenerator.generate_content_with_bedrock`
(`contracts.py` lines 28-56, `contracts2.py` lines 253-282): `ext` is
the combined behaviour of `invoke_model`, the body read and
`json.loads` (an exception from any of them is `.error`); the whole try
block — the external call followed by the payload extraction — is
wrapped in `except Exception: ... return None`. -/
def generate_content_with_bedrock (ext : Except String JVal) :
    Except String (Option JVal) :=
  match ext.bind extractFirstText with
  | .ok r => .ok r
  | .error _ => .ok none

/-- The batch loop shared by both `main` functions
(`contracts.py` lines 553-561, `contracts2.py` lines 705-717): fold over
the `(state_code, state_info)` items, incrementing the success counter
when `process_state` returns `True` and appending the state code to the
failure list otherwise. -/
def runBatch {α : Type} (proc : α → Bool) (records : List (String × α)) :
    Nat × List String :=
  records.foldl
    (fun acc kv =>
      if proc kv.2 then (acc.1 + 1, acc.2) else (acc.1, acc.2 ++ [kv.1]))
    (0, [])

/-- The `provider_details` sub-record of a state configuration. -/
structure ProviderDetails where
  fleet_size : Nat
  operating_hours : String
  driver_count : Nat
  term : String
deriving Repr, DecidableEq

/-- One entry of the `state_configs` table — the spec's
JurisdictionRecord. -/
structure JurisdictionRecord where
  state : String
  state_abbrev : String
  health_agency : String
  agency_city : String
  provider_name : String
  provider_city : String
  service_regions : List String
  contract_date : String
  provider_details : ProviderDetails
deriving Repr, DecidableEq

/-- The `"FL"` entry of `state_configs` (identical in both variants). -/
def florida : JurisdictionRecord where
  state := "Florida"
  state_abbrev := "FL"
  health_agency := "Florida Department of Health"
  agency_city := "Tallahassee"
  provider_name := "SafeRide Transit Solutions"
  provider_city := "Orlando"
  service_regions := ["Orange County", "Seminole County", "Osceola County"]
  contract_date := "March 15, 2024"
  provider_details :=
    { fleet_size := 50
      operating_hours := "24/7"
      driver_count := 120
      term := "2-year contract with 1-year renewal option" }

/-- Python `', '.join(xs)`. -/
def joinComma : List String → String
  | [] => ""
  | [s] => s
  | s :: rest => s ++ ", " ++ joinComma rest

/-- The f-string of `StateContractGenerator.create_contract`
(`contracts.py` lines 59-72). -/
def create_contract_prompt (r : JurisdictionRecord) : String :=
  "Generate a detailed contract between the " ++ r.health_agency
    ++ " (located in " ++ r.agency_city ++ ", " ++ r.state ++ ") \n        and "
    ++ r.provider_name ++ " (a transportation provider headquartered in "
    ++ r.provider_city ++ ", " ++ r.state
    ++ "). \n\n        Use these specific details:\n        - Contract date: "
    ++ r.contract_date ++ "\n        - Term: " ++ r.provider_details.term
    ++ "\n        - Service area: " ++ joinComma r.service_regions
    ++ "\n        - Provider details: \n            * Fleet size: "
    ++ toString r.provider_details.fleet_size
    ++ " vehicles\n            * Operating hours: "
    ++ r.provider_details.operating_hours
    ++ "\n            * Number of certified drivers: "
    ++ toString r.provider_details.driver_count
    ++ "\n        \n        The response should be in a format that can be parsed into sections, with clear headings marked by \x27#\x27 symbols.\n        Include standard contract sections but make all details specific to "
    ++ r.state ++ " and medical transportation."

/-- The f-string of `StateContractGenerator.generate_rate_schedule`
(`contracts.py` lines 77-96). -/
def generate_rate_schedule_prompt (r : JurisdictionRecord) : String :=
  "Generate a detailed transportation rate schedule for " ++ r.health_agency
    ++ " contract with " ++ r.provider_name ++ " \n        in " ++ r.state
    ++ ". The response should be in a format that can be converted to a table with the following columns:\n        \n        Service Type | Base Rate | Mileage Rate | Wait Time Rate | After Hours | Weekend/Holiday\n        \n        Include these service types:\n        - Standard Vehicle Transport\n        - Wheelchair Accessible Vehicle\n        - Stretcher Transport\n        - Bariatric Transport\n        - Group Transport\n        \n        Consider "
    ++ r.state
    ++ "\x27s:\n        - Cost of living\n        - Fuel costs\n        - Urban vs rural rates\n        - State regulations\n        \n        Make rates realistic for "
    ++ r.state
    ++ " market in 2024.\n        Format the response as pipe-separated values for easy table creation."

/-- The f-string of `StateContractGenerator.generate_service_areas`
(`contracts.py` lines 101-118). -/
def generate_service_areas_prompt (r : JurisdictionRecord) : String :=
  "Generate a detailed service area coverage table for " ++ r.provider_name
    ++ "\x27s contract in " ++ r.state
    ++ ".\n        The response should be in a format that can be converted to a table with the following columns:\n\n        Service Zone | Counties Covered | Response Time | Population Served | Facilities Covered | Special Conditions\n\n        Create entries for:\n        - Primary urban zones\n        - Suburban areas\n        - Rural coverage\n        - Special service areas\n        \n        Consider "
    ++ r.state
    ++ "\x27s:\n        - Geographic features\n        - Population distribution\n        - Healthcare facility locations\n        - Emergency service requirements\n\n        Format the response as pipe-separated values for easy table creation."

/-- The f-string of `StateContractGenerator.generate_performance_standards`
(`contracts.py` lines 123-141). -/
def generate_performance_standards_prompt (r : JurisdictionRecord) : String :=
  "Generate detailed performance standards for " ++ r.provider_name
    ++ "\x27s contract in " ++ r.state
    ++ ".\n        The response should be in a format that can be converted to a table with the following columns:\n\n        Performance Category | Standard | Measurement Method | Minimum Target | Penalty for Non-Compliance\n\n        Include standards for:\n        - On-time performance\n        - Vehicle maintenance\n        - Driver qualifications\n        - Customer service\n        - Safety metrics\n        - Complaint resolution\n        \n        Consider "
    ++ r.state
    ++ "\x27s:\n        - Healthcare regulations\n        - Quality metrics\n        - Reporting requirements\n        \n        Format the response as pipe-separated values for easy table creation."

/-- The f-string of `StateContractGenerator.create_contract`
(`contracts2.py` lines 285-312). -/
def create_contract2_prompt (r : JurisdictionRecord) : String :=
  "Create a detailed transportation services contract between "
    ++ r.health_agency ++ " and " ++ r.provider_name
    ++ ".\n        Format the response as HTML with proper sections and headings.\n        \n        Include these key details:\n        - Contract date: "
    ++ r.contract_date ++ "\n        - Agency location: " ++ r.agency_city
    ++ ", " ++ r.state ++ "\n        - Provider location: " ++ r.provider_city
    ++ ", " ++ r.state ++ "\n        - Term: " ++ r.provider_details.term
    ++ "\n        - Service areas: " ++ joinComma r.service_regions
    ++ "\n        - Fleet size: " ++ toString r.provider_details.fleet_size
    ++ " vehicles\n        - Operating hours: "
    ++ r.provider_details.operating_hours ++ "\n        - Driver count: "
    ++ toString r.provider_details.driver_count
    ++ "\n\n        Include standard sections:\n        1. Parties and Purpose\n        2. Definitions\n        3. Term and Renewal\n        4. Scope of Services\n        5. Provider Responsibilities\n        6. Agency Responsibilities\n        7. Compensation\n        8. Compliance and Reporting\n        9. Insurance and Liability\n        10. Termination\n        11. General Provisions\n\n        Format as clean HTML with proper headings and paragraphs.\n        Make all details specific to "
    ++ r.state ++ " and medical transportation."

/-- The f-string of `StateContractGenerator.generate_rate_schedule`
(`contracts2.py` lines 317-335). -/
def generate_rate_schedule2_prompt (r : JurisdictionRecord) : String :=
  "Create an HTML table showing transportation rates for " ++ r.provider_name
    ++ " in " ++ r.state
    ++ ".\n        \n        Include these service types:\n        - Standard Vehicle Transport\n        - Wheelchair Accessible Vehicle\n        - Stretcher Transport\n        - Bariatric Transport\n        - Group Transport\n\n        Table columns:\n        - Service Type\n        - Base Rate\n        - Mileage Rate\n        - Wait Time Rate\n        - After Hours Rate\n        - Weekend/Holiday Rate\n\n        Return a properly formatted HTML table with realistic rates for "
    ++ r.state
    ++ ".\n        Include <thead> and <tbody> tags, and proper styling classes."

/-- The f-string of `StateContractGenerator.generate_service_areas`
(`contracts2.py` lines 340-357). -/
def generate_service_areas2_prompt (r : JurisdictionRecord) : String :=
  "Create an HTML table showing service area details for " ++ r.provider_name
    ++ " in " ++ r.state
    ++ ".\n        \n        Include these zones:\n        - Primary Urban Areas\n        - Suburban Regions\n        - Rural Coverage\n        - Special Service Areas\n\n        Table columns:\n        - Service Zone\n        - Counties Covered\n        - Response Time\n        - Population Served\n        - Facilities Covered\n        - Special Conditions\n\n        Return a properly formatted HTML table specific to "
    ++ r.state
    ++ ".\n        Include <thead> and <tbody> tags, and proper styling classes."

/-- The f-string of `StateContractGenerator.generate_performance_standards`
(`contracts2.py` lines 362-379). -/
def generate_performance_standards2_prompt (r : JurisdictionRecord) : String :=
  "Create an HTML table showing performance standards for " ++ r.provider_name
    ++ " in " ++ r.state
    ++ ".\n        \n        Include these categories:\n        - On-time Performance\n        - Vehicle Maintenance\n        - Driver Qualifications\n        - Safety Metrics\n        - Complaint Resolution\n\n        Table columns:\n        - Performance Category\n        - Standard Description\n        - Measurement Method\n        - Minimum Target\n        - Non-Compliance Penalty\n\n        Return a properly formatted HTML table with realistic standards.\n        Include <thead> and <tbody> tags, and proper styling classes."

/-- `pat` is a leading run of `s` (character lists). -/
def leadsWith : List Char → List Char → Bool
  | [], _ => true
  | _ :: _, [] => false
  | c :: cs, d :: ds => c == d && leadsWith cs ds

/-- `pat` occurs contiguously somewhere in `s` (character lists). -/
def occursIn (pat : List Char) : List Char → Bool
  | [] => leadsWith pat []
  | d :: ds => leadsWith pat (d :: ds) || occursIn pat ds

/-- Python `pat in s`: substring containment. -/
def containsStr (s pat : String) : Bool :=
  occursIn pat.data s.data

theorem strData_append (a b : String) : (a ++ b).data = a.data ++ b.data := by
  cases a
  cases b
  rfl

theorem leadsWith_refl (l : List Char) : leadsWith l l = true := by
  induction l with
  | nil => rfl
  | cons c cs ih => simp [leadsWith, ih]

theorem leadsWith_extend (p s t : List Char) (h : leadsWith p s = true) :
    leadsWith p (s ++ t) = true := by
  induction p generalizing s with
  | nil => rfl
  | cons c cs ih =>
    cases s with
    | nil => simp [leadsWith] at h
    | cons d ds =>
      simp [leadsWith] at h ⊢
      exact ⟨h.1, ih ds h.2⟩

theorem occursIn_nil_pat (l : List Char) : occursIn [] l = true := by
  induction l with
  | nil => rfl
  | cons d ds ih => simp [occursIn, leadsWith]

theorem occursIn_of_leadsWith (p s : List Char) (h : leadsWith p s = true) :
    occursIn p s = true := by
  cases s with
  | nil => simpa [occursIn] using h
  | cons d ds => simp [occursIn, h]

theorem occursIn_append_left (p s t : List Char) (h : occursIn p s = true) :
    occursIn p (s ++ t) = true := by
  induction s with
  | nil =>
    cases p with
    | nil => exact occursIn_nil_pat t
    | cons c cs => simp [occursIn, leadsWith] at h
  | cons d ds ih =>
    simp only [occursIn, Bool.or_eq_true] at h
    simp only [List.cons_append, occursIn, Bool.or_eq_true]
    rcases h with h1 | h2
    · exact Or.inl (leadsWith_extend p (d :: ds) t h1)
    · exact Or.inr (ih h2)

theorem occursIn_append_right (p s t : List Char) (h : occursIn p t = true) :
    occursIn p (s ++ t) = true := by
  induction s with
  | nil => simpa using h
  | cons d ds ih =>
    simp only [List.cons_append, occursIn, Bool.or_eq_true]
    exact Or.inr ih

theorem substr_refl (s : String) : containsStr s s = true :=
  occursIn_of_leadsWith _ _ (leadsWith_refl _)

theorem substr_suffix (a p : String) : containsStr (a ++ p) p = true := by
  unfold containsStr
  rw [strData_append]
  exact occursIn_append_right _ _ _ (occursIn_of_leadsWith _ _ (leadsWith_refl _))

theorem substr_append_left (a b p : String) (h : containsStr a p = true) :
    containsStr (a ++ b) p = true := by
  unfold containsStr at h ⊢
  rw [strData_append]
  exact occursIn_append_left _ _ _ h

theorem parseBlocks_eq_filterMap (lines : List String) :
    parseBlocks lines = lines.filterMap amendedBlockOfLine := by
  induction lines with
  | nil => rfl
  | cons line rest ih =>
    cases hb : isBlankLine line with
    | true =>
      simp [parseBlocks, amendedBlockOfLine, hb, ih, List.filterMap_cons]
    | false =>
      cases hh : startsWithHash line with
      | true =>
        simp [parseBlocks, amendedBlockOfLine, hb, hh, ih, List.filterMap_cons]
      | false =>
        simp [parseBlocks, amendedBlockOfLine, hb, hh, ih, List.filterMap_cons]

theorem blank_false_of_hash (s : String) (h : startsWithHash s = true) :
    isBlankLine s = false := by
  unfold startsWithHash at h
  unfold isBlankLine
  cases hd : s.data with
  | nil => rw [hd] at h; cases h
  | cons c cs =>
    rw [hd] at h
    have hc : c = '#' := by simpa using h
    subst hc
    have hw : ('#').isWhitespace = false := by decide
    simp [List.all_cons, hw]

theorem exceptMap_isOk {ε α β : Type} (f : α → β) (x : Except ε α) :
    (x.map f).isOk = x.isOk := by
  cases x <;> rfl

theorem processContractLines_not_ok (lines : List String)
    (h : ∃ l ∈ lines, startsWithHash l = true ∧ 6 < countHash l) :
    (processContractLines lines).isOk = false := by
  induction lines with
  | nil => rcases h with ⟨l, hl, _⟩; cases hl
  | cons line rest ih =>
    rcases h with ⟨l, hl, hsw, hcnt⟩
    rcases List.mem_cons.mp hl with rfl | hmem
    · have hb : isBlankLine l = false := blank_false_of_hash _ hsw
      have hsty : styleFor (countHash l) = none := by
        unfold styleFor
        have : (countHash l ≤ 6) = False := by simp; omega
        simp [this]
      simp [processContractLines, hb, hsw, hsty, Except.isOk, Except.toBool]
    · have hrest := ih ⟨l, hmem, hsw, hcnt⟩
      cases hb : isBlankLine line with
      | true => simpa [processContractLines, hb] using hrest
      | false =>
        cases hh : startsWithHash line with
        | false =>
          simp [processContractLines, hb, hh, exceptMap_isOk, hrest]
        | true =>
          cases hsty : styleFor (countHash line) with
          | none => simp [processContractLines, hb, hh, hsty, Except.isOk, Except.toBool]
          | some st =>
            simp [processContractLines, hb, hh, hsty, exceptMap_isOk, hrest]

theorem processContractLines_ok_bounds (lines : List String)
    (bs : List DocumentBlock) (h : processContractLines lines = .ok bs) :
    ∀ l ∈ lines, startsWithHash l = true →
      1 ≤ countHash l ∧ countHash l ≤ 6 := by
  induction lines generalizing bs with
  | nil => intro l hl; cases hl
  | cons line rest ih =>
    intro l hl hsw
    rcases List.mem_cons.mp hl with rfl | hmem
    · have hb : isBlankLine l = false := blank_false_of_hash _ hsw
      rw [processContractLines, hb, hsw] at h
      simp only [Bool.false_eq_true, if_false, if_true] at h
      cases hsty : styleFor (countHash l) with
      | none => rw [hsty] at h; cases h
      | some st =>
        have hcond : (1 ≤ countHash l && countHash l ≤ 6) = true := by
          by_contra hc
          rw [styleFor] at hsty
          simp only [Bool.not_eq_true] at hc
          rw [hc] at hsty
          simp at hsty
        simpa [Bool.and_eq_true, decide_eq_true_eq] using hcond
    · cases hb : isBlankLine line with
      | true =>
        rw [processContractLines, hb] at h
        simp only [if_true] at h
        exact ih bs h l hmem hsw
      | false =>
        cases hh : startsWithHash line with
        | false =>
          rw [processContractLines, hb, hh] at h
          simp only [Bool.false_eq_true, if_false] at h
          cases hrest : processContractLines rest with
          | error e => rw [hrest] at h; cases h
          | ok bs' => exact ih bs' hrest l hmem hsw
        | true =>
          rw [processContractLines, hb, hh] at h
          simp only [Bool.false_eq_true, if_false, if_true] at h
          cases hsty : styleFor (countHash line) with
          | none => rw [hsty] at h; cases h
          | some st =>
            rw [hsty] at h
            cases hrest : processContractLines rest with
            | error e => rw [hrest] at h; cases h
            | ok bs' => exact ih bs' hrest l hmem hsw

theorem create_document1_ok_body (a b c d : String) (st : PdfStory)
    (h : create_document1 a b c d = .ok st) :
    ∃ bs, processContractLines (pySplit '\n' a) = .ok bs := by
  cases hpb : processContractLines (pySplit '\n' a) with
  | error e =>
    rw [create_document1, hpb] at h
    cases h
  | ok bs => exact ⟨bs, rfl⟩

theorem listGet?_of_length_le {α : Type} (l : List α) (n : Nat)
    (h : l.length ≤ n) : l[n]? = none := by
  induction l generalizing n with
  | nil => rfl
  | cons x xs ih =>
    cases n with
    | zero => simp at h
    | succ m => simpa using ih m (by simpa using h)

theorem listGet?_map {α β : Type} (f : α → β) (l : List α) (n : Nat) :
    (l.map f)[n]? = (l[n]?).map f := by
  induction l generalizing n with
  | nil => rfl
  | cons x xs ih =>
    cases n with
    | zero => simp
    | succ m =>
      rw [List.map_cons, List.getElem?_cons_succ, List.getElem?_cons_succ]
      exact ih m

theorem colMax_none (rows : List (List String)) (row : List String) (j : Nat)
    (hmem : row ∈ rows) (hj : row[j]? = none) : colMax rows j = none := by
  induction rows with
  | nil => cases hmem
  | cons r rest ih =>
    rcases List.mem_cons.mp hmem with rfl | hmem'
    · simp [colMax, hj]
    · rw [colMax]
      cases hr : r[j]? with
      | none => rfl
      | some cell => simp [ih hmem']

theorem optionMapList_none (f : Nat → Option Nat) (l : List Nat) (j : Nat)
    (hj : j ∈ l) (hf : f j = none) : optionMapList f l = none := by
  induction l with
  | nil => cases hj
  | cons x xs ih =>
    rcases List.mem_cons.mp hj with rfl | hmem
    · simp [optionMapList, hf]
    · rw [optionMapList]
      cases hx : f x with
      | none => rfl
      | some w => simp [ih hmem]

theorem runBatch_foldl {α : Type} (proc : α → Bool)
    (records : List (String × α)) :
    ∀ (n : Nat) (fs : List String),
      records.foldl
        (fun acc kv =>
          if proc kv.2 then (acc.1 + 1, acc.2) else (acc.1, acc.2 ++ [kv.1]))
        (n, fs)
      = (n + (records.filter (fun kv => proc kv.2)).length,
         fs ++ (records.filter (fun kv => !proc kv.2)).map Prod.fst) := by
  induction records with
  | nil => intro n fs; simp
  | cons kv rest ih =>
    intro n fs
    cases hp : proc kv.2 with
    | true =>
      simp only [List.foldl_cons, hp, if_true, ih, List.filter_cons]
      simp [hp]
      omega
    | false =>
      simp only [List.foldl_cons, hp, Bool.false_eq_true, if_false, ih,
        List.filter_cons]
      simp [hp, List.append_assoc]

theorem filter_length_split {α : Type} (p : α → Bool) (l : List α) :
    (l.filter p).length + (l.filter (fun a => !p a)).length = l.length := by
  induction l with
  | nil => rfl
  | cons x xs ih =>
    cases hp : p x <;> simp [List.filter_cons, hp] <;> omega

theorem listAll_false {α : Type} (p : α → Bool) (l : List α) (x : α)
    (hx : x ∈ l) (hp : p x = false) : l.all p = false := by
  induction l with
  | nil => cases hx
  | cons y ys ih =>
    rcases List.mem_cons.mp hx with rfl | hm
    · simp [List.all_cons, hp]
    · simp [List.all_cons, ih hm]

/-- C1 counterexample: the claim says a heading segment's depth equals
the length of its LEADING run of `'#'` markers; but for the single-line
reply `"# Title #"` the code (`level = section.count('#')`) produces
depth 2, text `"Title"` (the trailing marker is counted and stripped),
while the leading marker run has length 1. -/
theorem c1_markdown_block_counterexample :
    create_document2_blocks "# Title #" = [⟨2, "Title"⟩]
    ∧ specLeadingMarkerRun "# Title #" = 1
    ∧ (2 : Nat) ≠ 1 :=
  ⟨by decide, by decide, by decide⟩

/-- C1 amended: for every reply, each blank segment yields no block; a
segment whose first character is `'#'` yields a block whose depth is the
TOTAL number of `'#'` characters in the segment (not just the leading
run), with `'#'` stripped from BOTH ends and surrounding whitespace
stripped; every other segment yields a depth-0 block with its text
unchanged.  The claim's concrete example is unaffected: the input
`"# Title\nBody line\n## Sub"` yields exactly the blocks (1, "Title"),
(0, "Body line"), (2, "Sub"). -/
theorem c1_markdown_block_amended :
    (∀ content : String,
      create_document2_blocks content
        = (pySplit '\n' content).filterMap amendedBlockOfLine)
    ∧ create_document2_blocks "# Title\nBody line\n## Sub"
        = [⟨1, "Title"⟩, ⟨0, "Body line"⟩, ⟨2, "Sub"⟩] :=
  ⟨fun _ => parseBlocks_eq_filterMap _, by decide⟩

/-- C2: if any one of the four content generation results is the failure
sentinel `None` or an empty string, then in both variants the record's
outcome is failed, the document assembler is never invoked, and no
output file is written. -/
theorem c2_all_or_nothing_gate (c r s p : Option String) (buildOk : Bool)
    (configOk : Bool) (succeeds : RenderStrategy → Bool)
    (h : truthy c = false ∨ truthy r = false ∨ truthy s = false
      ∨ truthy p = false) :
    process_state1 c r s p buildOk = ⟨false, false, false⟩
    ∧ process_state2 c r s p configOk succeeds
        = ⟨false, false, false, false, []⟩ := by
  have hg : (truthy c && truthy r && truthy s && truthy p) = false := by
    rcases h with h | h | h | h <;> simp [h]
  constructor
  · simp [process_state1, hg]
  · simp [process_state2, hg]

/-- Witness for C2 at a concrete input: the contract-body call fails
(`None`) while the other three succeed. -/
theorem c2_gate_witness :
    (truthy none = false ∨ truthy (some "x") = false
      ∨ truthy (some "x") = false ∨ truthy (some "x") = false)
    ∧ (process_state1 none (some "x") (some "x") (some "x") true
          = ⟨false, false, false⟩
        ∧ process_state2 none (some "x") (some "x") (some "x") true
            (fun _ => true)
          = ⟨false, false, false, false, []⟩) :=
  ⟨Or.inl rfl,
   c2_all_or_nothing_gate none (some "x") (some "x") (some "x") true true
     (fun _ => true) (Or.inl rfl)⟩

/-- C3: for every reply containing a row whose column count differs
from the header's (shorter OR longer), the parsing step preserves every
row exactly as split and trimmed — row `i` of the parse is exactly the
cell-split of line `i`, never padded or truncated to the header's
length — so the mismatch survives parsing un-repaired (the grid
violates the equal-column-count invariant).  Detection happens only at
layout time: a row shorter than the header makes the in-repo
column-width loop raise (Python `IndexError`), and whenever that loop
succeeds (the longer-row case) the grid handed to the external `Table`
layout engine still violates the invariant, so the failure manifests
inside the layout stage, never as a parse-time repair. -/
theorem c3_malformed_table_passthrough (data : String)
    (h : ∃ row ∈ parseTableRows data,
      row.length ≠ ((parseTableRows data).headD []).length) :
    (∀ i : Nat,
      (parseTableRows data)[i]?
        = ((pySplit '\n' (pyStrip data))[i]?).map
            (fun line => (pySplit '|' (pyStrip line)).map pyStrip))
    ∧ rowsMatchHeader (parseTableRows data) = false
    ∧ ((∃ row ∈ parseTableRows data,
          row.length < ((parseTableRows data).headD []).length) →
        computeColWidths (parseTableRows data) = none)
    ∧ (∀ ws, computeColWidths (parseTableRows data) = some ws →
        rowsMatchHeader (parseTableRows data) = false) := by
  have hragged : rowsMatchHeader (parseTableRows data) = false := by
    rcases h with ⟨row, hmem, hne⟩
    apply listAll_false _ _ row hmem
    simpa using hne
  refine ⟨?_, hragged, ?_, fun ws _ => hragged⟩
  · intro i
    simp only [parseTableRows]
    rw [listGet?_map, listGet?_map]
    cases (pySplit '\n' (pyStrip data))[i]? <;> rfl
  · intro hshort
    rcases hshort with ⟨row, hmem, hlen⟩
    cases hrows : parseTableRows data with
    | nil => rw [hrows] at hmem; cases hmem
    | cons header rest =>
      rw [hrows] at hmem hlen
      simp only [List.headD_cons] at hlen
      rw [computeColWidths]
      apply optionMapList_none _ _ row.length
      · exact List.mem_range.mpr hlen
      · exact colMax_none _ row _ hmem (listGet?_of_length_le _ _ (le_refl _))

/-- Witness for C3 at two concrete inputs: the reply `"A|B|C\n1|2"` has
a SHORT data row (2 cells against a 3-cell header) and the column-width
loop fails; the reply `"A|B|C\n1|2|3|4"` has a LONG data row (4 cells)
which passes through the parser untouched, leaving the grid in
violation of the header-count invariant for the layout stage. -/
theorem c3_passthrough_witness :
    (∃ row ∈ parseTableRows "A|B|C\n1|2",
      row.length ≠ ((parseTableRows "A|B|C\n1|2").headD []).length)
    ∧ computeColWidths (parseTableRows "A|B|C\n1|2") = none
    ∧ (∃ row ∈ parseTableRows "A|B|C\n1|2|3|4",
      row.length ≠ ((parseTableRows "A|B|C\n1|2|3|4").headD []).length)
    ∧ rowsMatchHeader (parseTableRows "A|B|C\n1|2|3|4") = false :=
  ⟨by decide,
   (c3_malformed_table_passthrough "A|B|C\n1|2" (by decide)).2.2.1 (by decide),
   by decide,
   (c3_malformed_table_passthrough "A|B|C\n1|2|3|4" (by decide)).2.1⟩

/-- C4: for every behaviour of the external model call (an exception, or
any reply payload), `generate_content_with_bedrock` returns normally —
the try/except converts every exception into the failure sentinel and
never lets one propagate; in particular an exception from the call
itself yields `None`. -/
theorem c4_client_failure_policy :
    (∀ ext : Except String JVal,
      ∃ res : Option JVal, generate_content_with_bedrock ext = .ok res)
    ∧ (∀ e : String,
      generate_content_with_bedrock (.error e) = .ok none) := by
  constructor
  · intro ext
    rw [generate_content_with_bedrock]
    cases ext.bind extractFirstText with
    | ok r => exact ⟨r, rfl⟩
    | error e => exact ⟨none, rfl⟩
  · intro e
    rfl

/-- C5: `create_table_from_data` splits the outer-stripped reply into
lines, splits each line on `'|'`, and strips every cell (the first row
being the header); on the claim's concrete input it yields the stated
3×3 grid with header `["A","B","C"]`. -/
theorem c5_pipe_table_parsing :
    (∀ data : String,
      parseTableRows data
        = (pySplit '\n' (pyStrip data)).map
            (fun line => (pySplit '|' (pyStrip line)).map pyStrip))
    ∧ parseTableRows "A | B | C\n1 | 2 | 3\n4 | 5 | 6"
        = [["A", "B", "C"], ["1", "2", "3"], ["4", "5", "6"]]
    ∧ (parseTableRows "A | B | C\n1 | 2 | 3\n4 | 5 | 6").head?
        = some ["A", "B", "C"] := by
  refine ⟨fun data => ?_, by decide, by decide⟩
  simp only [parseTableRows]
  rw [List.map_map]
  rfl

/-- C6: the batch driver processes every record (the summary's success
count plus the failure list's length is the batch size), reports exactly
the successful records' count, and lists exactly the failed records'
state codes in input order — for any per-record outcome function, hence
regardless of where the failures sit in the input order. -/
theorem c6_batch_summary {α : Type} (proc : α → Bool)
    (records : List (String × α)) :
    (runBatch proc records).1
        = (records.filter (fun kv => proc kv.2)).length
    ∧ (runBatch proc records).2
        = (records.filter (fun kv => !proc kv.2)).map Prod.fst
    ∧ (runBatch proc records).1 + ((runBatch proc records).2).length
        = records.length := by
  have h := runBatch_foldl proc records 0 []
  rw [runBatch, h]
  refine ⟨by simp, by simp, ?_⟩
  simp only [List.nil_append, List.length_map, Nat.zero_add]
  exact filter_length_split _ records

/-- C7 counterexample: the claim says a gate-passing record "is declared
failed only after all three strategies have failed"; but the renderer
configuration lookup (`config = pdfkit.configuration()`,
`contracts2.py` line 618) sits inside the conversion `try` and raises
when wkhtmltopdf is not installed, in which case the record is declared
failed with ZERO conversion strategies attempted — here even though
every strategy would have succeeded had it been tried. -/
theorem c7_fallback_counterexample :
    ((truthy (some "x") && truthy (some "x") && truthy (some "x")
        && truthy (some "x")) = true)
    ∧ (process_state2 (some "x") (some "x") (some "x") (some "x") false
        (fun _ => true)).ok = false
    ∧ (process_state2 (some "x") (some "x") (some "x") (some "x") false
        (fun _ => true)).attempts = [] :=
  ⟨by decide, by decide, by decide⟩

/-- C7 amended: for every record that passes the content gate AND whose
renderer-configuration lookup succeeds, the HTML variant attempts PDF
conversion through exactly the three strategies in the fixed order
file-with-full-options, string-with-full-options,
file-with-minimal-options, stopping at the first success, and declares
the record failed only after all three strategies have failed.  (When
the configuration lookup itself raises — renderer not installed — the
record is declared failed with no strategy attempted.) -/
theorem c7_renderer_fallback (c r s p : Option String)
    (succeeds : RenderStrategy → Bool)
    (h : (truthy c && truthy r && truthy s && truthy p) = true) :
    (succeeds .fileFull = true →
      (process_state2 c r s p true succeeds).attempts = [.fileFull]
      ∧ (process_state2 c r s p true succeeds).ok = true)
    ∧ (succeeds .fileFull = false → succeeds .stringFull = true →
      (process_state2 c r s p true succeeds).attempts
          = [.fileFull, .stringFull]
      ∧ (process_state2 c r s p true succeeds).ok = true)
    ∧ (succeeds .fileFull = false → succeeds .stringFull = false →
        succeeds .fileMinimal = true →
      (process_state2 c r s p true succeeds).attempts
          = [.fileFull, .stringFull, .fileMinimal]
      ∧ (process_state2 c r s p true succeeds).ok = true)
    ∧ (succeeds .fileFull = false → succeeds .stringFull = false →
        succeeds .fileMinimal = false →
      (process_state2 c r s p true succeeds).attempts
          = [.fileFull, .stringFull, .fileMinimal]
      ∧ (process_state2 c r s p true succeeds).ok = false) := by
  refine ⟨?_, ?_, ?_, ?_⟩
  · intro h1
    simp [process_state2, attemptConversion, h, h1]
  · intro h1 h2
    simp [process_state2, attemptConversion, h, h1, h2]
  · intro h1 h2 h3
    simp [process_state2, attemptConversion, h, h1, h2, h3]
  · intro h1 h2 h3
    simp [process_state2, attemptConversion, h, h1, h2, h3]

/-- Witness for the amended C7 at a concrete input: all four contents
present, configuration lookup succeeding, every conversion strategy
failing — all three strategies are attempted and the record fails. -/
theorem c7_fallback_witness :
    ((truthy (some "x") && truthy (some "x") && truthy (some "x")
        && truthy (some "x")) = true)
    ∧ ((process_state2 (some "x") (some "x") (some "x") (some "x") true
          (fun _ => false)).attempts = [.fileFull, .stringFull, .fileMinimal]
      ∧ (process_state2 (some "x") (some "x") (some "x") (some "x") true
          (fun _ => false)).ok = false) :=
  ⟨by decide,
   (c7_renderer_fallback (some "x") (some "x") (some "x") (some "x")
      (fun _ => false) (by decide)).2.2.2 rfl rfl rfl⟩

/-- C8: every record field referenced by each of the eight prompt
templates (four content kinds in each variant) appears literally as a
substring of the built prompt, for every JurisdictionRecord (prompt
construction is a total function and never fails); in particular the
Florida contract-body prompt contains `"Florida"`,
`"Florida Department of Health"` and `"50"`. -/
theorem c8_prompt_completeness :
    (containsStr (create_contract_prompt florida) "Florida" = true
      ∧ containsStr (create_contract_prompt florida)
          "Florida Department of Health" = true
      ∧ containsStr (create_contract_prompt florida) "50" = true)
    ∧ (∀ r : JurisdictionRecord,
      containsStr (create_contract_prompt r) r.health_agency = true
      ∧ containsStr (create_contract_prompt r) r.agency_city = true
      ∧ containsStr (create_contract_prompt r) r.state = true
      ∧ containsStr (create_contract_prompt r) r.provider_name = true
      ∧ containsStr (create_contract_prompt r) r.provider_city = true
      ∧ containsStr (create_contract_prompt r) r.contract_date = true
      ∧ containsStr (create_contract_prompt r) r.provider_details.term = true
      ∧ containsStr (create_contract_prompt r)
          (joinComma r.service_regions) = true
      ∧ containsStr (create_contract_prompt r)
          (toString r.provider_details.fleet_size) = true
      ∧ containsStr (create_contract_prompt r)
          r.provider_details.operating_hours = true
      ∧ containsStr (create_contract_prompt r)
          (toString r.provider_details.driver_count) = true
      ∧ containsStr (generate_rate_schedule_prompt r) r.health_agency = true
      ∧ containsStr (generate_rate_schedule_prompt r) r.provider_name = true
      ∧ containsStr (generate_rate_schedule_prompt r) r.state = true
      ∧ containsStr (generate_service_areas_prompt r) r.provider_name = true
      ∧ containsStr (generate_service_areas_prompt r) r.state = true
      ∧ containsStr (generate_performance_standards_prompt r)
          r.provider_name = true
      ∧ containsStr (generate_performance_standards_prompt r) r.state = true
      ∧ containsStr (create_contract2_prompt r) r.health_agency = true
      ∧ containsStr (create_contract2_prompt r) r.provider_name = true
      ∧ containsStr (create_contract2_prompt r) r.contract_date = true
      ∧ containsStr (create_contract2_prompt r) r.agency_city = true
      ∧ containsStr (create_contract2_prompt r) r.state = true
      ∧ containsStr (create_contract2_prompt r) r.provider_city = true
      ∧ containsStr (create_contract2_prompt r) r.provider_details.term = true
      ∧ containsStr (create_contract2_prompt r)
          (joinComma r.service_regions) = true
      ∧ containsStr (create_contract2_prompt r)
          (toString r.provider_details.fleet_size) = true
      ∧ containsStr (create_contract2_prompt r)
          r.provider_details.operating_hours = true
      ∧ containsStr (create_contract2_prompt r)
          (toString r.provider_details.driver_count) = true
      ∧ containsStr (generate_rate_schedule2_prompt r) r.provider_name = true
      ∧ containsStr (generate_rate_schedule2_prompt r) r.state = true
      ∧ containsStr (generate_service_areas2_prompt r) r.provider_name = true
      ∧ containsStr (generate_service_areas2_prompt r) r.state = true
      ∧ containsStr (generate_performance_standards2_prompt r)
          r.provider_name = true
      ∧ containsStr (generate_performance_standards2_prompt r)
          r.state = true) := by
  constructor
  · exact ⟨by decide, by decide, by decide⟩
  · intro r
    refine ⟨?_, ?_, ?_, ?_, ?_, ?_, ?_, ?_, ?_, ?_, ?_, ?_, ?_, ?_, ?_, ?_,
      ?_, ?_, ?_, ?_, ?_, ?_, ?_, ?_, ?_, ?_, ?_, ?_, ?_, ?_, ?_, ?_, ?_,
      ?_, ?_⟩
    · simp only [create_contract_prompt]
      iterate 25 (apply substr_append_left)
      exact substr_suffix _ _
    · simp only [create_contract_prompt]
      iterate 23 (apply substr_append_left)
      exact substr_suffix _ _
    · simp only [create_contract_prompt]
      iterate 1 (apply substr_append_left)
      exact substr_suffix _ _
    · simp only [create_contract_prompt]
      iterate 19 (apply substr_append_left)
      exact substr_suffix _ _
    · simp only [create_contract_prompt]
      iterate 17 (apply substr_append_left)
      exact substr_suffix _ _
    · simp only [create_contract_prompt]
      iterate 13 (apply substr_append_left)
      exact substr_suffix _ _
    · simp only [create_contract_prompt]
      iterate 11 (apply substr_append_left)
      exact substr_suffix _ _
    · simp only [create_contract_prompt]
      iterate 9 (apply substr_append_left)
      exact substr_suffix _ _
    · simp only [create_contract_prompt]
      iterate 7 (apply substr_append_left)
      exact substr_suffix _ _
    · simp only [create_contract_prompt]
      iterate 5 (apply substr_append_left)
      exact substr_suffix _ _
    · simp only [create_contract_prompt]
      iterate 3 (apply substr_append_left)
      exact substr_suffix _ _
    · simp only [generate_rate_schedule_prompt]
      iterate 9 (apply substr_append_left)
      exact substr_suffix _ _
    · simp only [generate_rate_schedule_prompt]
      iterate 7 (apply substr_append_left)
      exact substr_suffix _ _
    · simp only [generate_rate_schedule_prompt]
      iterate 1 (apply substr_append_left)
      exact substr_suffix _ _
    · simp only [generate_service_areas_prompt]
      iterate 5 (apply substr_append_left)
      exact substr_suffix _ _
    · simp only [generate_service_areas_prompt]
      iterate 1 (apply substr_append_left)
      exact substr_suffix _ _
    · simp only [generate_performance_standards_prompt]
      iterate 5 (apply substr_append_left)
      exact substr_suffix _ _
    · simp only [generate_performance_standards_prompt]
      iterate 1 (apply substr_append_left)
      exact substr_suffix _ _
    · simp only [create_contract2_prompt]
      iterate 25 (apply substr_append_left)
      exact substr_suffix _ _
    · simp only [create_contract2_prompt]
      iterate 23 (apply substr_append_left)
      exact substr_suffix _ _
    · simp only [create_contract2_prompt]
      iterate 21 (apply substr_append_left)
      exact substr_suffix _ _
    · simp only [create_contract2_prompt]
      iterate 19 (apply substr_append_left)
      exact substr_suffix _ _
    · simp only [create_contract2_prompt]
      iterate 1 (apply substr_append_left)
      exact substr_suffix _ _
    · simp only [create_contract2_prompt]
      iterate 15 (apply substr_append_left)
      exact substr_suffix _ _
    · simp only [create_contract2_prompt]
      iterate 11 (apply substr_append_left)
      exact substr_suffix _ _
    · simp only [create_contract2_prompt]
      iterate 9 (apply substr_append_left)
      exact substr_suffix _ _
    · simp only [create_contract2_prompt]
      iterate 7 (apply substr_append_left)
      exact substr_suffix _ _
    · simp only [create_contract2_prompt]
      iterate 5 (apply substr_append_left)
      exact substr_suffix _ _
    · simp only [create_contract2_prompt]
      iterate 3 (apply substr_append_left)
      exact substr_suffix _ _
    · simp only [generate_rate_schedule2_prompt]
      iterate 5 (apply substr_append_left)
      exact substr_suffix _ _
    · simp only [generate_rate_schedule2_prompt]
      iterate 1 (apply substr_append_left)
      exact substr_suffix _ _
    · simp only [generate_service_areas2_prompt]
      iterate 5 (apply substr_append_left)
      exact substr_suffix _ _
    · simp only [generate_service_areas2_prompt]
      iterate 1 (apply substr_append_left)
      exact substr_suffix _ _
    · simp only [generate_performance_standards2_prompt]
      iterate 3 (apply substr_append_left)
      exact substr_suffix _ _
    · simp only [generate_performance_standards2_prompt]
      iterate 1 (apply substr_append_left)
      exact substr_suffix _ _

/-- C9: in the direct-PDF variant, a contract-body line starting with
`'#'` whose total `'#'` count exceeds 6 makes the heading-style lookup
fail (`KeyError`, since the sample stylesheet stops at `Heading6`), so
assembly fails and `process_state` returns failure; conversely a record
that succeeds contains only heading lines whose `'#'` count lies between
1 and 6. -/
theorem c9_heading_depth_gate (contract rate svc perf : String)
    (buildOk : Bool) :
    ((∃ line ∈ pySplit '\n' contract,
        startsWithHash line = true ∧ 6 < countHash line) →
      (process_state1 (some contract) (some rate) (some svc) (some perf)
          buildOk).ok = false)
    ∧ ((process_state1 (some contract) (some rate) (some svc) (some perf)
          buildOk).ok = true →
      ∀ line ∈ pySplit '\n' contract, startsWithHash line = true →
        1 ≤ countHash line ∧ countHash line ≤ 6) := by
  constructor
  · intro h
    rw [process_state1]
    simp only [Option.getD_some]
    cases hg : truthy (some contract) && truthy (some rate)
        && truthy (some svc) && truthy (some perf) with
    | false => simp
    | true =>
      cases hcd : create_document1 contract rate svc perf with
      | error e => simp [hcd]
      | ok st =>
        exfalso
        obtain ⟨bs, hbs⟩ := create_document1_ok_body _ _ _ _ _ hcd
        have hno := processContractLines_not_ok _ h
        rw [hbs] at hno
        cases hno
  · intro hok line hline hsw
    rw [process_state1] at hok
    simp only [Option.getD_some] at hok
    cases hg : truthy (some contract) && truthy (some rate)
        && truthy (some svc) && truthy (some perf) with
    | false =>
      rw [hg] at hok
      simp at hok
    | true =>
      rw [hg] at hok
      simp only [if_true] at hok
      cases hcd : create_document1 contract rate svc perf with
      | error e =>
        rw [hcd] at hok
        simp at hok
      | ok st =>
        obtain ⟨bs, hbs⟩ := create_document1_ok_body _ _ _ _ _ hcd
        exact processContractLines_ok_bounds _ _ hbs line hline hsw

/-- Witness for C9 at a concrete input: a seven-`'#'` heading line fails
the record even though the three table contents are well-formed. -/
theorem c9_gate_witness :
    (∃ line ∈ pySplit '\n' "####### Overflow",
      startsWithHash line = true ∧ 6 < countHash line)
    ∧ (process_state1 (some "####### Overflow") (some "A|B\n1|2\n3|4")
        (some "A|B\n1|2") (some "A|B\n1|2") true).ok = false :=
  ⟨by decide,
   (c9_heading_depth_gate "####### Overflow" "A|B\n1|2\n3|4" "A|B\n1|2"
      "A|B\n1|2" true).1 (by decide)⟩

/-- C10: in the HTML variant the `.html` file is written before any PDF
conversion is attempted, so a record whose three conversion attempts all
fail is reported failed while its `.html` file remains on disk (and no
`.pdf` is produced) — a failed record is not artifact-free.  This holds
for either behaviour of the renderer-configuration lookup: whether the
failure is the lookup raising or all three strategies failing, the
already-written HTML persists. -/
theorem c10_html_artifact_persists (c r s p : Option String)
    (configOk : Bool) (succeeds : RenderStrategy → Bool)
    (hgate : (truthy c && truthy r && truthy s && truthy p) = true)
    (h1 : succeeds .fileFull = false) (h2 : succeeds .stringFull = false)
    (h3 : succeeds .fileMinimal = false) :
    (process_state2 c r s p configOk succeeds).ok = false
    ∧ (process_state2 c r s p configOk succeeds).htmlWritten = true
    ∧ (process_state2 c r s p configOk succeeds).pdfWritten = false := by
  cases configOk <;>
    simp [process_state2, attemptConversion, hgate, h1, h2, h3]

/-- Witness for C10 at a concrete input: all contents present,
configuration lookup succeeding, every conversion strategy failing. -/
theorem c10_persists_witness :
    ((truthy (some "c") && truthy (some "r") && truthy (some "s")
        && truthy (some "p")) = true)
    ∧ ((process_state2 (some "c") (some "r") (some "s") (some "p") true
          (fun _ => false)).ok = false
      ∧ (process_state2 (some "c") (some "r") (some "s") (some "p") true
          (fun _ => false)).htmlWritten = true
      ∧ (process_state2 (some "c") (some "r") (some "s") (some "p") true
          (fun _ => false)).pdfWritten = false) :=
  ⟨by decide,
   c10_html_artifact_persists (some "c") (some "r") (some "s") (some "p")
     true (fun _ => false) (by decide) rfl rfl rfl⟩
